import Mathlib

/-!
Verification of `sktime/utils/validation/series_as_features.py`.

The module validates feature collections (`check_X`), target collections
(`check_y`) and feature/target pairs (`check_X_y`), with a private helper
`_enforce_min_instances`.  We embed the Python values that flow through the
module as the sum type `PyVal` (a nested pandas DataFrame, a pandas Series,
a numpy ndarray, or any other object), and each function as a total Lean
function returning `Except PyError _`, where `PyError` records the Python
exception class together with the message.  Numeric cell contents are
embedded as `Int` (their exact value only ever matters for equality).
-/

/-- The Python exception classes that can appear in this development.
Every `raise` in the source constructs a `ValueError`. -/
inductive PyExcKind where
  | valueError
  | typeError
  | indexError
deriving DecidableEq, Repr

/-- A raised Python exception: its class and its message. -/
structure PyError where
  kind : PyExcKind
  msg : String
deriving DecidableEq, Repr

/-- A cell of a pandas DataFrame: either a scalar or an embedded sequence
(a `pd.Series` / `np.array` of values, embedded as a list). -/
inductive Cell where
  | scalar (v : Int)
  | seq (vs : List Int)
deriving DecidableEq, Repr

/-- `true` iff the cell holds an embedded sequence rather than a scalar. -/
def Cell.isSeq : Cell → Bool
  | .scalar _ => false
  | .seq _ => true

/-- The values stored in a cell, viewed as a numpy row: a sequence cell
contributes its elements, a scalar cell its single value. -/
def Cell.values : Cell → List Int
  | .scalar v => [v]
  | .seq vs => vs

/-- A pandas DataFrame: `ncols` columns (the column index exists even when
there are no rows) and a list of rows, each row a list of cells. -/
structure DataFrame where
  ncols : Nat
  rows : List (List Cell)
deriving DecidableEq, Repr

/-- A numpy ndarray: its shape (one entry per axis, so `shape.length` is
`ndim`) and its entries flattened in row-major order. -/
structure NdArray where
  shape : List Nat
  data : List Int
deriving DecidableEq, Repr

/-- A Python value as seen by this module: one of the two accepted feature
representations, a pandas Series, or any other object (identified by the
name of its type, which only ever feeds error messages). -/
inductive PyVal where
  | dataFrame (df : DataFrame)
  | series (vals : List Int)
  | ndarray (a : NdArray)
  | other (typeName : String)
deriving DecidableEq, Repr

/-- `isinstance(v, pd.DataFrame)` -/
def PyVal.isDataFrame : PyVal → Bool
  | .dataFrame _ => true
  | _ => false

/-- `isinstance(v, pd.Series)` -/
def PyVal.isSeries : PyVal → Bool
  | .series _ => true
  | _ => false

/-- `isinstance(v, np.ndarray)` -/
def PyVal.isNdarray : PyVal → Bool
  | .ndarray _ => true
  | _ => false

/-- `v.ndim` for an ndarray (unused on the other variants). -/
def PyVal.ndim : PyVal → Nat
  | .ndarray a => a.shape.length
  | _ => 0

/-- `v.shape` as a list of axis lengths: a DataFrame reports
`(len(rows), ncols)`, a Series `(len,)`, an ndarray its own shape. -/
def PyVal.shapeL : PyVal → List Nat
  | .dataFrame df => [df.rows.length, df.ncols]
  | .series vs => [vs.length]
  | .ndarray a => a.shape
  | .other _ => []

/-- `v.shape[0]`, the leading-axis (instance) count.  Every value this
module reads it from has at least one axis. -/
def PyVal.shape0 (v : PyVal) : Nat := v.shapeL.getD 0 0

/-- `v.shape[1]`, the second-axis (column / variable) count. -/
def PyVal.shape1 (v : PyVal) : Nat := v.shapeL.getD 1 0

/-- `type(v)` rendered for error messages. -/
def PyVal.pyTypeName : PyVal → String
  | .dataFrame _ => "pandas.core.frame.DataFrame"
  | .series _ => "pandas.core.series.Series"
  | .ndarray _ => "numpy.ndarray"
  | .other t => t

/-- Message of the `check_X` type error. -/
def xTypeMsg (t : String) : String :=
  "X must be a pd.DataFrame or a np.array, but found: " ++ t

/-- Message of the `check_X` dimensionality error; it embeds `X.shape`. -/
def xBadNdimMsg (shape : List Nat) : String :=
  "If passed as a np.array, X must be a 3-dimensional array, but found shape: "
    ++ toString shape

/-- Message of the `check_X` minimum-columns error. -/
def xMinColumnsMsg (enforce_min_columns : Int) (n_columns : Nat) : String :=
  "X must contain at least: " ++ toString enforce_min_columns
    ++ " columns,but found only: " ++ toString n_columns ++ "."

/-- Message of the `check_X` univariate error; it embeds `X.shape[1]`. -/
def xUnivariateMsg (n_columns : Nat) : String :=
  "This method requires X to be univariate with X.shape[1]== 1, but found: X.shape[1] == "
    ++ toString n_columns ++ "."

/-- Message of the `check_X` nested-DataFrame error. -/
def xNestedMsg : String :=
  "If passed as a pd.DataFrame, X must be a nested pd.DataFrame, with pd.Series or np.arrays inside cells."

/-- Message of the `check_y` type error. -/
def yTypeMsg (t : String) : String :=
  "y must be either a pd.Series or a np.ndarray, but found type: " ++ t

/-- Message of the `_enforce_min_instances` error; it embeds the found
instance count and the required minimum. -/
def minInstancesMsg (n_instances : Nat) (min_instances : Int) : String :=
  "Found array with: " ++ toString n_instances
    ++ " instance(s) but a minimum of: " ++ toString min_instances
    ++ " is required."

/-- Message of the consistent-length error; it embeds both lengths. -/
def inconsistentLengthMsg (n m : Nat) : String :=
  "Found input variables with inconsistent numbers of samples: "
    ++ toString n ++ " " ++ toString m

/-- Modelled from the spec: `IsNestedTabular`
(`sktime.utils.data_container.is_nested_dataframe`, external collaborator
not in src/) is "true iff every cell in a tabular structure holds a
sequence-like value rather than a scalar". -/
def is_nested_dataframe (df : DataFrame) : Bool :=
  df.rows.all (fun r => r.all Cell.isSeq)

/-- Modelled from the spec: `NestedToDenseArray`
(`sktime.utils.data_container.nested_to_3d_numpy`, external collaborator
not in src/) "converts a validated nested tabular structure into a dense
(instance, variable, timepoint) array"; behaviour on non-uniform cell
lengths is undefined by the spec, so the timepoint axis is read from the
first cell. -/
def nested_to_3d_numpy (df : DataFrame) : NdArray :=
  let t : Nat :=
    match df.rows with
    | [] => 0
    | r :: _ =>
      match r with
      | [] => 0
      | c :: _ => c.values.length
  ⟨[df.rows.length, df.ncols, t],
   df.rows.flatMap (fun r => r.flatMap Cell.values)⟩

/-- Modelled from the spec: `CheckConsistentLength`
(`sklearn.utils.validation.check_consistent_length`, external collaborator
not in src/) "fails if the leading-dimension lengths of `a` and `b`
differ"; the failure is a `ValueError`. -/
def check_consistent_length (a b : PyVal) : Except PyError Unit :=
  if a.shape0 ≠ b.shape0 then
    .error ⟨.valueError, inconsistentLengthMsg a.shape0 b.shape0⟩
  else
    .ok ()

/-- `_enforce_min_instances(x, min_instances)`.  Every value this module
passes in exposes `shape`, so the `np.asarray` fallback of the source
collapses to reading the leading axis length. -/
def _enforce_min_instances (x : PyVal) (min_instances : Int) :
    Except PyError Unit :=
  -- n_instances = x.shape[0]
  if min_instances > 0 then
    if (x.shape0 : Int) < min_instances then
      .error ⟨.valueError, minInstancesMsg x.shape0 min_instances⟩
    else
      .ok ()
  else
    .ok ()

/-- The trailing `isinstance(X, pd.DataFrame)` block of `check_X`: the
nested-structure check and the optional conversion to a dense array. -/
def check_X_tail (X : PyVal) (return_numpy : Bool) : Except PyError PyVal :=
  match X with
  | .dataFrame df =>
    if !is_nested_dataframe df then
      .error ⟨.valueError, xNestedMsg⟩
    else if return_numpy then
      .ok (.ndarray (nested_to_3d_numpy df))
    else
      .ok X
  | _ => .ok X

/-- `check_X(X, return_numpy, enforce_univariate, enforce_min_instances,
enforce_min_columns)`. -/
def check_X (X : PyVal) (return_numpy : Bool) (enforce_univariate : Bool)
    (enforce_min_instances : Int) (enforce_min_columns : Int) :
    Except PyError PyVal :=
  -- check input type
  if !(X.isDataFrame || X.isNdarray) then
    .error ⟨.valueError, xTypeMsg X.pyTypeName⟩
  -- check np.array: dimensionality first, before any dimension is read
  else if X.isNdarray && !(X.ndim == 3) then
    .error ⟨.valueError, xBadNdimMsg X.shapeL⟩
  else
    -- n_instances, n_columns = X.shape[:2]; below `X.shape1` is n_columns
    -- enforce minimum number of columns
    if (X.shape1 : Int) < enforce_min_columns then
      .error ⟨.valueError, xMinColumnsMsg enforce_min_columns X.shape1⟩
    -- enforce univariate data
    else if enforce_univariate && decide (1 < X.shape1) then
      .error ⟨.valueError, xUnivariateMsg X.shape1⟩
    -- enforce minimum number of instances
    else if enforce_min_instances > 0 then
      match _enforce_min_instances X enforce_min_instances with
      | .error e => .error e
      | .ok _ => check_X_tail X return_numpy
    else
      check_X_tail X return_numpy

/-- `y.to_numpy()` for a pandas Series, applied when `check_y` returns a
numpy value; any other value is returned unchanged. -/
def y_to_numpy (y : PyVal) (return_numpy : Bool) : PyVal :=
  match y with
  | .series vs => if return_numpy then .ndarray ⟨[vs.length], vs⟩ else y
  | _ => y

/-- `check_y(y, enforce_min_instances, return_numpy)`. -/
def check_y (y : PyVal) (enforce_min_instances : Int) (return_numpy : Bool) :
    Except PyError PyVal :=
  if !(y.isSeries || y.isNdarray) then
    .error ⟨.valueError, yTypeMsg y.pyTypeName⟩
  else if enforce_min_instances > 0 then
    match _enforce_min_instances y enforce_min_instances with
    | .error e => .error e
    | .ok _ => .ok (y_to_numpy y return_numpy)
  else
    .ok (y_to_numpy y return_numpy)

/-- `check_X_y(X, y, enforce_univariate, enforce_min_instances,
enforce_min_columns)`: the three flags are forwarded to `check_X` only
(with `return_numpy` left at its default `False`), `check_y` runs with its
own defaults (`enforce_min_instances=1`, `return_numpy=False`). -/
def check_X_y (X y : PyVal) (enforce_univariate : Bool)
    (enforce_min_instances : Int) (enforce_min_columns : Int) :
    Except PyError (PyVal × PyVal) :=
  match check_X X false enforce_univariate enforce_min_instances
      enforce_min_columns with
  | .error e => .error e
  | .ok X2 =>
    match check_y y 1 false with
    | .error e => .error e
    | .ok y2 =>
      match check_consistent_length X2 y2 with
      | .error e => .error e
      | .ok _ => .ok (X2, y2)

/-- The checks of `check_X` other than the two column checks, bundled as a
predicate: accepted input type, rank exactly 3 for a dense array, at least
one instance, and the nested-structure predicate for a DataFrame. -/
def valid_X_except_columns : PyVal → Bool
  | .ndarray a => a.shape.length == 3 && decide (1 ≤ a.shape.getD 0 0)
  | .dataFrame df => decide (1 ≤ df.rows.length) && is_nested_dataframe df
  | _ => false

deriving instance DecidableEq for Except

/-! ### Helper lemmas -/

/-- The guard is a no-op when the requested minimum is not positive. -/
lemma enforce_min_instances_nonpos (x : PyVal) (mi : Int) (h : mi ≤ 0) :
    _enforce_min_instances x mi = .ok () := by
  simp [_enforce_min_instances, not_lt.2 h]

/-- The guard fails exactly on a positive minimum above the actual count. -/
lemma enforce_min_instances_fail (x : PyVal) (mi : Int)
    (h1 : 0 < mi) (h2 : (x.shape0 : Int) < mi) :
    _enforce_min_instances x mi =
      .error ⟨.valueError, minInstancesMsg x.shape0 mi⟩ := by
  simp [_enforce_min_instances, h1, h2]

/-- The guard passes when the actual count reaches the minimum. -/
lemma enforce_min_instances_ok (x : PyVal) (mi : Int)
    (h2 : mi ≤ (x.shape0 : Int)) :
    _enforce_min_instances x mi = .ok () := by
  simp [_enforce_min_instances, not_lt.2 h2]

/-- Any error of the guard is the `ValueError` carrying the found count and
the minimum. -/
lemma enforce_min_instances_error (x : PyVal) (mi : Int) (e : PyError)
    (h : _enforce_min_instances x mi = .error e) :
    e = ⟨.valueError, minInstancesMsg x.shape0 mi⟩ := by
  unfold _enforce_min_instances at h
  repeat' split at h
  all_goals first | (injection h with h; exact h.symm) | (cases h)

/-- Any error of the trailing DataFrame block is the nested-structure
`ValueError`. -/
lemma check_X_tail_error (X : PyVal) (rn : Bool) (e : PyError)
    (h : check_X_tail X rn = .error e) : e = ⟨.valueError, xNestedMsg⟩ := by
  unfold check_X_tail at h
  repeat' split at h
  all_goals first | (injection h with h; exact h.symm) | (cases h)

/-- Every error `check_X` can produce is a `ValueError`. -/
lemma check_X_error_kind (X : PyVal) (rn euv : Bool) (emi emc : Int)
    (e : PyError) (h : check_X X rn euv emi emc = .error e) :
    e.kind = .valueError := by
  unfold check_X at h
  repeat' split at h
  all_goals (try (injection h with h; subst h))
  all_goals first
    | rfl
    | (rw [check_X_tail_error X rn e h])
    | (rename_i e2 heq; rw [enforce_min_instances_error X emi e2 heq])

/-- Every error `check_y` can produce is a `ValueError`. -/
lemma check_y_error_kind (y : PyVal) (emi : Int) (rn : Bool)
    (e : PyError) (h : check_y y emi rn = .error e) :
    e.kind = .valueError := by
  unfold check_y at h
  repeat' split at h
  all_goals (try (injection h with h; subst h))
  all_goals first
    | rfl
    | (cases h)
    | (rename_i e2 heq; rw [enforce_min_instances_error y emi e2 heq])

/-- Every error of the length-consistency collaborator is a `ValueError`. -/
lemma check_consistent_length_error_kind (a b : PyVal) (e : PyError)
    (h : check_consistent_length a b = .error e) : e.kind = .valueError := by
  unfold check_consistent_length at h
  split at h
  · injection h with h
    subst h
    rfl
  · cases h

/-- Every error `check_X_y` can produce is a `ValueError`. -/
lemma check_X_y_error_kind (X y : PyVal) (euv : Bool) (emi emc : Int)
    (e : PyError) (h : check_X_y X y euv emi emc = .error e) :
    e.kind = .valueError := by
  unfold check_X_y at h
  repeat' split at h
  all_goals (try (injection h with h; subst h))
  all_goals first
    | (rename_i e2 heq; exact check_X_error_kind X false euv emi emc e2 heq)
    | (rename_i e2 heq; exact check_y_error_kind y 1 false e2 heq)
    | (rename_i e2 heq; exact check_consistent_length_error_kind _ _ e2 heq)
    | (cases h)

/-- When every structural check before the DataFrame block passes,
`check_X` reduces to the trailing DataFrame block. -/
lemma check_X_passes (X : PyVal) (rn euv : Bool) (emi emc : Int)
    (h1 : (X.isDataFrame || X.isNdarray) = true)
    (h2 : X.isNdarray = true → X.ndim = 3)
    (h3 : emc ≤ (X.shape1 : Int))
    (h4 : euv = true → X.shape1 ≤ 1)
    (h5 : 0 < emi → emi ≤ (X.shape0 : Int)) :
    check_X X rn euv emi emc = check_X_tail X rn := by
  have c2 : (X.isNdarray && !X.ndim == 3) = false := by
    cases hn : X.isNdarray
    · simp
    · simp [h2 hn]
  have c4 : (euv && decide (1 < X.shape1)) = false := by
    cases he : euv
    · simp
    · simp [Nat.not_lt.2 (h4 he)]
  by_cases hm : emi > 0
  · simp [check_X, h1, c2, not_lt.2 h3, c4, hm,
      enforce_min_instances_ok X emi (h5 hm)]
  · simp [check_X, h1, c2, not_lt.2 h3, c4, hm]

/-- When the type check and the instance-count guard pass, `check_y`
returns its input, converted to numpy when requested. -/
lemma check_y_passes (y : PyVal) (emi : Int) (rn : Bool)
    (h1 : (y.isSeries || y.isNdarray) = true)
    (h5 : 0 < emi → emi ≤ (y.shape0 : Int)) :
    check_y y emi rn = .ok (y_to_numpy y rn) := by
  by_cases hm : emi > 0
  · simp [check_y, h1, hm, enforce_min_instances_ok y emi (h5 hm)]
  · simp [check_y, h1, hm]

/-- When the earlier checks pass but the instance count falls short,
`check_X` raises the guard error. -/
lemma check_X_min_instances_fail (X : PyVal) (rn euv : Bool) (emi emc : Int)
    (h1 : (X.isDataFrame || X.isNdarray) = true)
    (h2 : X.isNdarray = true → X.ndim = 3)
    (h3 : emc ≤ (X.shape1 : Int))
    (h4 : euv = true → X.shape1 ≤ 1)
    (hmi : 0 < emi) (hlt : (X.shape0 : Int) < emi) :
    check_X X rn euv emi emc =
      .error ⟨.valueError, minInstancesMsg X.shape0 emi⟩ := by
  have c2 : (X.isNdarray && !X.ndim == 3) = false := by
    cases hn : X.isNdarray
    · simp
    · simp [h2 hn]
  have c4 : (euv && decide (1 < X.shape1)) = false := by
    cases he : euv
    · simp
    · simp [Nat.not_lt.2 (h4 he)]
  simp [check_X, h1, c2, not_lt.2 h3, c4, hmi,
    enforce_min_instances_fail X emi hmi hlt]

/-- When the type check passes but the instance count falls short,
`check_y` raises the guard error. -/
lemma check_y_min_instances_fail (y : PyVal) (emi : Int) (rn : Bool)
    (h1 : (y.isSeries || y.isNdarray) = true)
    (hmi : 0 < emi) (hlt : (y.shape0 : Int) < emi) :
    check_y y emi rn =
      .error ⟨.valueError, minInstancesMsg y.shape0 emi⟩ := by
  simp [check_y, h1, hmi, enforce_min_instances_fail y emi hmi hlt]

/-- When the type and rank checks pass but the column count falls short of
the minimum, `check_X` raises the minimum-columns error. -/
lemma check_X_min_columns_fail (X : PyVal) (rn euv : Bool) (emi emc : Int)
    (h1 : (X.isDataFrame || X.isNdarray) = true)
    (h2 : X.isNdarray = true → X.ndim = 3)
    (hlt : (X.shape1 : Int) < emc) :
    check_X X rn euv emi emc =
      .error ⟨.valueError, xMinColumnsMsg emc X.shape1⟩ := by
  have c2 : (X.isNdarray && !X.ndim == 3) = false := by
    cases hn : X.isNdarray
    · simp
    · simp [h2 hn]
  simp [check_X, h1, c2, hlt]

/-- When the earlier checks pass, `enforce_univariate=True` and the column
count exceeds 1, `check_X` raises the univariate error. -/
lemma check_X_univariate_fail (X : PyVal) (rn : Bool) (emi emc : Int)
    (h1 : (X.isDataFrame || X.isNdarray) = true)
    (h2 : X.isNdarray = true → X.ndim = 3)
    (h3 : emc ≤ (X.shape1 : Int))
    (hgt : 1 < X.shape1) :
    check_X X rn true emi emc =
      .error ⟨.valueError, xUnivariateMsg X.shape1⟩ := by
  have c2 : (X.isNdarray && !X.ndim == 3) = false := by
    cases hn : X.isNdarray
    · simp
    · simp [h2 hn]
  simp [check_X, h1, c2, not_lt.2 h3, hgt]

/-- With `return_numpy=False` a Series is returned unchanged. -/
lemma y_to_numpy_false (y : PyVal) : y_to_numpy y false = y := by
  cases y <;> simp [y_to_numpy]

/-- With `return_numpy=False` the DataFrame block never converts. -/
lemma check_X_tail_false_id (X X2 : PyVal)
    (h : check_X_tail X false = .ok X2) : X2 = X := by
  unfold check_X_tail at h
  repeat' split at h
  all_goals simp_all

/-- With `return_numpy=False` a successful `check_X` returns its input. -/
lemma check_X_false_ok_id (X X2 : PyVal) (euv : Bool) (emi emc : Int)
    (h : check_X X false euv emi emc = .ok X2) : X2 = X := by
  unfold check_X at h
  repeat' split at h
  all_goals first
    | (cases h)
    | (exact check_X_tail_false_id X X2 h)

/-- With `return_numpy=False` a successful `check_y` returns its input. -/
lemma check_y_false_ok_id (y y2 : PyVal) (emi : Int)
    (h : check_y y emi false = .ok y2) : y2 = y := by
  unfold check_y at h
  repeat' split at h
  all_goals (try (injection h with h))
  all_goals first
    | (rw [y_to_numpy_false] at h; exact h.symm)
    | (cases h)

@[simp] lemma shape0_dataFrame (df : DataFrame) :
    (PyVal.dataFrame df).shape0 = df.rows.length := rfl

@[simp] lemma shape1_dataFrame (df : DataFrame) :
    (PyVal.dataFrame df).shape1 = df.ncols := rfl

@[simp] lemma shape0_series (vs : List Int) :
    (PyVal.series vs).shape0 = vs.length := rfl

@[simp] lemma shape0_ndarray (a : NdArray) :
    (PyVal.ndarray a).shape0 = a.shape.getD 0 0 := rfl

@[simp] lemma shape1_ndarray (a : NdArray) :
    (PyVal.ndarray a).shape1 = a.shape.getD 1 0 := rfl

/-! ### Claims -/

/-- C2: for every dense array `X` whose rank is not exactly 3, `check_X`
fails with the `InvalidShapeError` (a `ValueError`) whose message includes
the actual shape of `X`, regardless of the four configuration flags. -/
theorem check_X_rank_check (a : NdArray) (rn euv : Bool) (emi emc : Int)
    (h : a.shape.length ≠ 3) :
    check_X (.ndarray a) rn euv emi emc =
      .error ⟨.valueError, xBadNdimMsg a.shape⟩
    ∧ (toString a.shape).data <:+: (xBadNdimMsg a.shape).data := by
  constructor
  · simp [check_X, PyVal.isDataFrame, PyVal.isNdarray, PyVal.ndim,
      PyVal.shapeL, h]
  · refine ⟨("If passed as a np.array, X must be a 3-dimensional array, but found shape: " : String).data, [], ?_⟩
    simp [xBadNdimMsg, String.data_append]

/-- Witness for C2 at the dense array of shape `(2, 2)`. -/
theorem check_X_rank_check_witness :
    (([2, 2] : List Nat).length ≠ 3)
    ∧ (check_X (.ndarray ⟨[2, 2], [1, 2, 3, 4]⟩) false false 1 1 =
         .error ⟨.valueError, xBadNdimMsg [2, 2]⟩
       ∧ (toString ([2, 2] : List Nat)).data <:+: (xBadNdimMsg [2, 2]).data) :=
  ⟨by decide, check_X_rank_check ⟨[2, 2], [1, 2, 3, 4]⟩ false false 1 1
    (by decide)⟩

/-- C8: with `return_numpy=True`, a flat Series of length `n` and the dense
1-dimensional array holding the same values are mapped by `check_y` to the
same dense array: the Series is converted and the array passes through. -/
theorem check_y_series_array_equiv (vs : List Int) (h : 1 ≤ vs.length) :
    check_y (.series vs) 1 true = .ok (.ndarray ⟨[vs.length], vs⟩)
    ∧ check_y (.ndarray ⟨[vs.length], vs⟩) 1 true =
        .ok (.ndarray ⟨[vs.length], vs⟩) := by
  constructor
  · rw [check_y_passes (.series vs) 1 true rfl (fun _ => by exact_mod_cast h)]
    rfl
  · rw [check_y_passes (.ndarray ⟨[vs.length], vs⟩) 1 true rfl
      (fun _ => by exact_mod_cast h)]
    rfl

/-- Witness for C8 at the Series `[10, 20, 30]`. -/
theorem check_y_series_array_equiv_witness :
    (1 ≤ ([10, 20, 30] : List Int).length)
    ∧ (check_y (.series [10, 20, 30]) 1 true =
         .ok (.ndarray ⟨[3], [10, 20, 30]⟩)
       ∧ check_y (.ndarray ⟨[3], [10, 20, 30]⟩) 1 true =
         .ok (.ndarray ⟨[3], [10, 20, 30]⟩)) :=
  ⟨by decide, check_y_series_array_equiv [10, 20, 30] (by decide)⟩

/-- C9: `check_y` performs no rank check on a dense-array target: any
ndarray with a leading axis whose length reaches `enforce_min_instances`
is returned unchanged, whatever its rank. -/
theorem check_y_no_rank_check (a : NdArray) (emi : Int) (rn : Bool)
    (hrank : 1 ≤ a.shape.length)
    (hmin : emi ≤ (a.shape.getD 0 0 : Int)) :
    check_y (.ndarray a) emi rn = .ok (.ndarray a) := by
  rw [check_y_passes (.ndarray a) emi rn rfl (fun _ => hmin)]
  rfl

/-- Witness for C9 at a rank-2 array of shape `(2, 3)`. -/
theorem check_y_no_rank_check_witness :
    (1 ≤ ([2, 3] : List Nat).length)
    ∧ ((1 : Int) ≤ (([2, 3] : List Nat).getD 0 0 : Int))
    ∧ check_y (.ndarray ⟨[2, 3], [1, 2, 3, 4, 5, 6]⟩) 1 false =
        .ok (.ndarray ⟨[2, 3], [1, 2, 3, 4, 5, 6]⟩) :=
  ⟨by decide, by decide,
   check_y_no_rank_check ⟨[2, 3], [1, 2, 3, 4, 5, 6]⟩ 1 false (by decide)
     (by decide)⟩

/-- C10: every failure of `check_X`, `check_y`, `check_X_y` and the
instance-count guard carries the single Python exception class
`ValueError`; the spec's four error categories differ only in message. -/
theorem validation_errors_single_exception_type :
    (∀ (X : PyVal) (rn euv : Bool) (emi emc : Int) (e : PyError),
        check_X X rn euv emi emc = .error e → e.kind = .valueError)
    ∧ (∀ (y : PyVal) (emi : Int) (rn : Bool) (e : PyError),
        check_y y emi rn = .error e → e.kind = .valueError)
    ∧ (∀ (X y : PyVal) (euv : Bool) (emi emc : Int) (e : PyError),
        check_X_y X y euv emi emc = .error e → e.kind = .valueError)
    ∧ (∀ (x : PyVal) (mi : Int) (e : PyError),
        _enforce_min_instances x mi = .error e → e.kind = .valueError) :=
  ⟨check_X_error_kind, check_y_error_kind, check_X_y_error_kind,
   fun x mi e h => by rw [enforce_min_instances_error x mi e h]⟩

/-- Witness for C10: a type error of `check_X`, a type error of `check_y`,
a length mismatch of `check_X_y` and a guard failure, all `ValueError`. -/
theorem validation_errors_single_exception_type_witness :
    (⟨.valueError, xTypeMsg "int"⟩ : PyError).kind = .valueError
    ∧ (⟨.valueError, yTypeMsg "dict"⟩ : PyError).kind = .valueError
    ∧ (⟨.valueError, inconsistentLengthMsg 2 1⟩ : PyError).kind = .valueError
    ∧ (⟨.valueError, minInstancesMsg 0 2⟩ : PyError).kind = .valueError :=
  ⟨validation_errors_single_exception_type.1 (.other "int") false false 1 1
      _ rfl,
   validation_errors_single_exception_type.2.1 (.other "dict") 1 false _ rfl,
   validation_errors_single_exception_type.2.2.1
      (.ndarray ⟨[2, 1, 3], [0, 0, 0, 0, 0, 0]⟩) (.series [5]) false 1 1
      _ (by decide),
   validation_errors_single_exception_type.2.2.2 (.series []) 2 _ (by decide)⟩

/-- C1: when `X` passes `check_X` with the forwarded flags and `y` passes
`check_y` with its defaults, `check_X_y` fails with the inconsistent-length
`ValueError` exactly when the instance count of `X` differs from the entry
count of `y`, and otherwise returns the pair produced by the individual
checks (which, with `return_numpy=False`, is the input pair itself). -/
theorem check_X_y_inconsistent_length_iff (X y X2 y2 : PyVal) (euv : Bool)
    (emi emc : Int)
    (hX : check_X X false euv emi emc = .ok X2)
    (hy : check_y y 1 false = .ok y2) :
    ((check_X_y X y euv emi emc =
        .error ⟨.valueError, inconsistentLengthMsg X.shape0 y.shape0⟩)
      ↔ X.shape0 ≠ y.shape0)
    ∧ (X.shape0 = y.shape0 →
        check_X_y X y euv emi emc = .ok (X2, y2)) := by
  have hid : X2 = X := check_X_false_ok_id X X2 euv emi emc hX
  have hid2 : y2 = y := check_y_false_ok_id y y2 1 hy
  unfold check_X_y check_consistent_length
  rw [hX, hy]
  by_cases hne : X.shape0 = y.shape0
  · simp [hid, hid2, hne]
  · simp [hid, hid2, hne]

/-- Witness for C1: a `(2, 1, 3)` dense `X` against targets of lengths 2
(success, inputs returned) and 1 (inconsistent-length failure). -/
theorem check_X_y_inconsistent_length_iff_witness :
    (check_X_y (.ndarray ⟨[2, 1, 3], [1, 2, 3, 4, 5, 6]⟩) (.series [5, 6])
        false 1 1 =
      .ok (.ndarray ⟨[2, 1, 3], [1, 2, 3, 4, 5, 6]⟩, .series [5, 6]))
    ∧ (check_X_y (.ndarray ⟨[2, 1, 3], [1, 2, 3, 4, 5, 6]⟩) (.series [5])
        false 1 1 =
      .error ⟨.valueError, inconsistentLengthMsg 2 1⟩) :=
  ⟨(check_X_y_inconsistent_length_iff (.ndarray ⟨[2, 1, 3], [1, 2, 3, 4, 5, 6]⟩)
      (.series [5, 6]) (.ndarray ⟨[2, 1, 3], [1, 2, 3, 4, 5, 6]⟩)
      (.series [5, 6]) false 1 1 (by decide) (by decide)).2 rfl,
   (check_X_y_inconsistent_length_iff (.ndarray ⟨[2, 1, 3], [1, 2, 3, 4, 5, 6]⟩)
      (.series [5]) (.ndarray ⟨[2, 1, 3], [1, 2, 3, 4, 5, 6]⟩)
      (.series [5]) false 1 1 (by decide) (by decide)).1.mpr (by decide)⟩

/-- C3: a non-positive `min_instances` makes the instance-count guard a
no-op; a minimum of at least 1 together with a smaller leading-axis length
makes `check_y` and `check_X` (the latter once its earlier type and column
checks pass) fail with the guard `ValueError`, whose message carries both
the found count and the required minimum. -/
theorem min_instances_zero_disables_positive_enforces :
    (∀ (x : PyVal) (mi : Int), mi ≤ 0 →
        _enforce_min_instances x mi = .ok ())
    ∧ (∀ (y : PyVal) (mi : Int) (rn : Bool),
        (y.isSeries || y.isNdarray) = true →
        1 ≤ mi → (y.shape0 : Int) < mi →
        check_y y mi rn =
          .error ⟨.valueError, minInstancesMsg y.shape0 mi⟩)
    ∧ (∀ (X : PyVal) (rn euv : Bool) (mi emc : Int),
        (X.isDataFrame || X.isNdarray) = true →
        (X.isNdarray = true → X.ndim = 3) →
        emc ≤ (X.shape1 : Int) →
        (euv = true → X.shape1 ≤ 1) →
        1 ≤ mi → (X.shape0 : Int) < mi →
        check_X X rn euv mi emc =
          .error ⟨.valueError, minInstancesMsg X.shape0 mi⟩)
    ∧ (∀ (n : Nat) (mi : Int),
        (toString n).data <:+: (minInstancesMsg n mi).data
        ∧ (toString mi).data <:+: (minInstancesMsg n mi).data) := by
  refine ⟨enforce_min_instances_nonpos, ?_, ?_, ?_⟩
  · intro y mi rn h1 hmi hlt
    exact check_y_min_instances_fail y mi rn h1 (by omega) hlt
  · intro X rn euv mi emc h1 h2 h3 h4 hmi hlt
    exact check_X_min_instances_fail X rn euv mi emc h1 h2 h3 h4 (by omega) hlt
  · intro n mi
    constructor
    · exact ⟨("Found array with: " : String).data,
        (" instance(s) but a minimum of: " ++ toString mi
          ++ " is required." : String).data,
        by simp [minInstancesMsg, String.data_append]⟩
    · exact ⟨("Found array with: " ++ toString n
          ++ " instance(s) but a minimum of: " : String).data,
        (" is required." : String).data,
        by simp [minInstancesMsg, String.data_append]⟩

/-- Witness for C3: the guard accepts an empty Series when disabled, and
`check_y` / `check_X` reject too-small collections when enabled. -/
theorem min_instances_zero_disables_positive_enforces_witness :
    _enforce_min_instances (.series []) 0 = .ok ()
    ∧ check_y (.series []) 1 false =
        .error ⟨.valueError, minInstancesMsg 0 1⟩
    ∧ check_X (.ndarray ⟨[1, 1, 3], [7, 8, 9]⟩) false false 2 1 =
        .error ⟨.valueError, minInstancesMsg 1 2⟩ :=
  ⟨min_instances_zero_disables_positive_enforces.1 (.series []) 0 (by decide),
   min_instances_zero_disables_positive_enforces.2.1 (.series []) 1 false
     (by decide) (by decide) (by decide),
   min_instances_zero_disables_positive_enforces.2.2.1
     (.ndarray ⟨[1, 1, 3], [7, 8, 9]⟩) false false 2 1 (by decide)
     (fun _ => by decide) (by decide) (fun h => by cases h) (by decide)
     (by decide)⟩

/-- C4: `check_X_y` forwards its three configuration flags to `check_X`
only (with `return_numpy=False`), validates `y` with `check_y`'s defaults,
and therefore rejects a 0-instance target with the insufficient-instance
error even when `enforce_min_instances = 0`. -/
theorem check_X_y_forwards_flags_to_X_only :
    (∀ (X y : PyVal) (euv : Bool) (emi emc : Int) (e : PyError),
        check_X X false euv emi emc = .error e →
        check_X_y X y euv emi emc = .error e)
    ∧ (∀ (X y X2 : PyVal) (euv : Bool) (emi emc : Int) (e : PyError),
        check_X X false euv emi emc = .ok X2 →
        check_y y 1 false = .error e →
        check_X_y X y euv emi emc = .error e)
    ∧ (∀ (X X2 y : PyVal) (euv : Bool) (emc : Int),
        check_X X false euv 0 emc = .ok X2 →
        (y.isSeries || y.isNdarray) = true →
        y.shape0 = 0 →
        check_X_y X y euv 0 emc =
          .error ⟨.valueError, minInstancesMsg 0 1⟩) := by
  refine ⟨?_, ?_, ?_⟩
  · intro X y euv emi emc e h
    unfold check_X_y
    rw [h]
  · intro X y X2 euv emi emc e hX hy
    unfold check_X_y
    rw [hX, hy]
  · intro X X2 y euv emc hX h1 h0
    have hy := check_y_min_instances_fail y 1 false h1 one_pos (by simp [h0])
    rw [h0] at hy
    unfold check_X_y
    rw [hX, hy]

/-- Witness for C4: a valid `X` with `enforce_min_instances = 0` still
fails on an empty target Series. -/
theorem check_X_y_forwards_flags_to_X_only_witness :
    check_X_y (.ndarray ⟨[2, 1, 3], [1, 2, 3, 4, 5, 6]⟩) (.series [])
        false 0 1 =
      .error ⟨.valueError, minInstancesMsg 0 1⟩ :=
  check_X_y_forwards_flags_to_X_only.2.2
    (.ndarray ⟨[2, 1, 3], [1, 2, 3, 4, 5, 6]⟩)
    (.ndarray ⟨[2, 1, 3], [1, 2, 3, 4, 5, 6]⟩) (.series []) false 1
    (by decide) (by decide) (by decide)

/-- C5: for a feature input passing every check except the column checks,
`check_X` with `enforce_univariate=True` (other flags at their defaults)
succeeds iff the column count is exactly 1, and for more than one column
it fails with the univariate `ValueError` mentioning the found count. -/
theorem check_X_univariate_iff (X : PyVal)
    (hvalid : valid_X_except_columns X = true) :
    ((∃ X2, check_X X false true 1 1 = .ok X2) ↔ X.shape1 = 1)
    ∧ (1 < X.shape1 →
        check_X X false true 1 1 =
          .error ⟨.valueError, xUnivariateMsg X.shape1⟩
        ∧ (toString X.shape1).data <:+: (xUnivariateMsg X.shape1).data) := by
  obtain ⟨hA, hB, hC, hD⟩ :
      ((X.isDataFrame || X.isNdarray) = true)
      ∧ (X.isNdarray = true → X.ndim = 3)
      ∧ (1 ≤ X.shape0)
      ∧ check_X_tail X false = .ok X := by
    cases X with
    | dataFrame df =>
      simp only [valid_X_except_columns, Bool.and_eq_true,
        decide_eq_true_eq] at hvalid
      refine ⟨rfl, by simp [PyVal.isNdarray], by simpa using hvalid.1, ?_⟩
      simp [check_X_tail, hvalid.2]
    | ndarray a =>
      simp only [valid_X_except_columns, Bool.and_eq_true, beq_iff_eq,
        decide_eq_true_eq] at hvalid
      refine ⟨rfl, fun _ => by simp [PyVal.ndim, hvalid.1],
        by simpa using hvalid.2, ?_⟩
      simp [check_X_tail]
    | series vs => simp [valid_X_except_columns] at hvalid
    | other t => simp [valid_X_except_columns] at hvalid
  rcases Nat.lt_trichotomy X.shape1 1 with hcol | hcol | hcol
  · have h0 : X.shape1 = 0 := by omega
    have herr := check_X_min_columns_fail X false true 1 1 hA hB (by simp [h0])
    constructor
    · constructor
      · rintro ⟨X2, hX2⟩
        rw [herr] at hX2
        cases hX2
      · intro h1
        omega
    · intro hgt
      omega
  · have hok : check_X X false true 1 1 = .ok X := by
      rw [check_X_passes X false true 1 1 hA hB (by simp [hcol])
        (fun _ => by omega) (fun _ => by exact_mod_cast hC)]
      exact hD
    constructor
    · simp [hok, hcol]
    · intro hgt
      omega
  · have herr := check_X_univariate_fail X false 1 1 hA hB
      (by exact_mod_cast hcol.le) hcol
    constructor
    · constructor
      · rintro ⟨X2, hX2⟩
        rw [herr] at hX2
        cases hX2
      · intro h1
        omega
    · intro _
      refine ⟨herr, ⟨("This method requires X to be univariate with X.shape[1]== 1, but found: X.shape[1] == " : String).data, ("." : String).data, ?_⟩⟩
      simp [xUnivariateMsg, String.data_append]

/-- Witness for C5: the spec scenario, a dense array of shape `(5, 2, 10)`
with `enforce_univariate=True`, fails mentioning the found count 2. -/
theorem check_X_univariate_iff_witness :
    valid_X_except_columns (.ndarray ⟨[5, 2, 10], List.replicate 100 0⟩)
      = true
    ∧ check_X (.ndarray ⟨[5, 2, 10], List.replicate 100 0⟩) false true 1 1 =
        .error ⟨.valueError, xUnivariateMsg 2⟩ :=
  ⟨by decide,
   ((check_X_univariate_iff (.ndarray ⟨[5, 2, 10], List.replicate 100 0⟩)
       (by decide)).2 (by decide)).1⟩

/-- C6: on a valid nested DataFrame of shape `(n, c)` whose cells all hold
sequences of one uniform length `t`, `check_X` with `return_numpy=True`
returns a dense array of shape `(n, c, t)`, and running `check_X` with
`return_numpy=True` on that dense output returns it unchanged. -/
theorem check_X_nested_to_dense_idempotent (df : DataFrame) (t : Nat)
    (hn : 1 ≤ df.rows.length) (hc : 1 ≤ df.ncols)
    (huniform : ∀ r ∈ df.rows, r.length = df.ncols ∧
        ∀ c ∈ r, ∃ vs, c = Cell.seq vs ∧ vs.length = t) :
    ∃ a : NdArray,
      check_X (.dataFrame df) true false 1 1 = .ok (.ndarray a)
      ∧ a.shape = [df.rows.length, df.ncols, t]
      ∧ check_X (.ndarray a) true false 1 1 = .ok (.ndarray a) := by
  have hnest : is_nested_dataframe df = true := by
    simp only [is_nested_dataframe, List.all_eq_true]
    intro r hr c hcm
    obtain ⟨vs, hceq, _⟩ := (huniform r hr).2 c hcm
    simp [hceq, Cell.isSeq]
  obtain ⟨r0, rest, hrows⟩ : ∃ r0 rest, df.rows = r0 :: rest := by
    cases hr : df.rows with
    | nil => rw [hr] at hn; simp at hn
    | cons a l => exact ⟨a, l, rfl⟩
  obtain ⟨c0, cs, hr0⟩ : ∃ c0 cs, r0 = c0 :: cs := by
    have hlen := (huniform r0 (by rw [hrows]; exact List.mem_cons_self _ _)).1
    cases hc0 : r0 with
    | nil => rw [hc0] at hlen; simp at hlen; omega
    | cons a l => exact ⟨a, l, rfl⟩
  obtain ⟨vs, hc0eq, hvslen⟩ :=
    (huniform r0 (by rw [hrows]; exact List.mem_cons_self _ _)).2 c0
      (by rw [hr0]; exact List.mem_cons_self _ _)
  have hshape : (nested_to_3d_numpy df).shape =
      [df.rows.length, df.ncols, t] := by
    simp [nested_to_3d_numpy, hrows, hr0, hc0eq, Cell.values, hvslen]
  refine ⟨nested_to_3d_numpy df, ?_, hshape, ?_⟩
  · rw [check_X_passes (.dataFrame df) true false 1 1 rfl
      (by simp [PyVal.isNdarray])
      (by simp only [shape1_dataFrame]; exact_mod_cast hc)
      (fun h => by cases h)
      (fun _ => by simp only [shape0_dataFrame]; exact_mod_cast hn)]
    simp [check_X_tail, hnest]
  · rw [check_X_passes (.ndarray (nested_to_3d_numpy df)) true false 1 1 rfl
      (fun _ => by simp [PyVal.ndim, hshape])
      (by simp only [shape1_ndarray, hshape, List.getD_cons_succ,
            List.getD_cons_zero]
          exact_mod_cast hc)
      (fun h => by cases h)
      (fun _ => by
          simp only [shape0_ndarray, hshape, List.getD_cons_zero]
          exact_mod_cast hn)]
    simp [check_X_tail]

/-- Witness for C6 at the 1-row, 1-column nested DataFrame whose single
cell holds the sequence `[1, 2, 3]`. -/
theorem check_X_nested_to_dense_idempotent_witness :
    ∃ a : NdArray,
      check_X (.dataFrame ⟨1, [[.seq [1, 2, 3]]]⟩) true false 1 1 =
        .ok (.ndarray a)
      ∧ a.shape = [1, 1, 3]
      ∧ check_X (.ndarray a) true false 1 1 = .ok (.ndarray a) :=
  check_X_nested_to_dense_idempotent ⟨1, [[.seq [1, 2, 3]]]⟩ 3 (by decide)
    (by decide)
    (by
      intro r hr
      simp only [List.mem_singleton] at hr
      subst hr
      refine ⟨rfl, ?_⟩
      intro c hcm
      simp only [List.mem_singleton] at hcm
      subst hcm
      exact ⟨[1, 2, 3], rfl, rfl⟩)

/-- C7: for a DataFrame passing the column and instance checks, `check_X`
fails with the nested-structure `ValueError` iff the nested predicate is
false, and when the predicate holds it returns the input, converted to a
dense array exactly when `return_numpy=True`. -/
theorem check_X_nested_structure_iff (df : DataFrame) (rn euv : Bool)
    (emi emc : Int)
    (h3 : emc ≤ (df.ncols : Int))
    (h4 : euv = true → df.ncols ≤ 1)
    (h5 : 0 < emi → emi ≤ (df.rows.length : Int)) :
    ((check_X (.dataFrame df) rn euv emi emc =
        .error ⟨.valueError, xNestedMsg⟩) ↔ is_nested_dataframe df = false)
    ∧ (is_nested_dataframe df = true →
        check_X (.dataFrame df) rn euv emi emc =
          .ok (if rn then .ndarray (nested_to_3d_numpy df)
               else .dataFrame df)) := by
  have hpass := check_X_passes (.dataFrame df) rn euv emi emc rfl
    (by simp [PyVal.isNdarray]) h3 h4 h5
  rw [hpass]
  cases hnest : is_nested_dataframe df
  · constructor
    · simp [check_X_tail, hnest]
    · intro h
      cases h
  · constructor
    · cases rn <;> simp [check_X_tail, hnest]
    · intro _
      cases rn <;> simp [check_X_tail, hnest]

/-- Witness for C7: a DataFrame with a scalar cell is rejected, a nested
one with `return_numpy=True` is converted. -/
theorem check_X_nested_structure_iff_witness :
    (check_X (.dataFrame ⟨1, [[.scalar 4]]⟩) false false 1 1 =
        .error ⟨.valueError, xNestedMsg⟩)
    ∧ (check_X (.dataFrame ⟨1, [[.seq [4]]]⟩) true false 1 1 =
        .ok (.ndarray (nested_to_3d_numpy ⟨1, [[.seq [4]]]⟩))) :=
  ⟨(check_X_nested_structure_iff ⟨1, [[.scalar 4]]⟩ false false 1 1
      (by decide) (fun h => by cases h) (fun _ => by decide)).1.mpr
      (by decide),
   (check_X_nested_structure_iff ⟨1, [[.seq [4]]]⟩ true false 1 1
      (by decide) (fun h => by cases h) (fun _ => by decide)).2 (by decide)⟩
